import Mathlib

/-!
Verification of the Tokyo-Main barcode/label studio core.

This file gives a shallow embedding, over exact rationals, of the core of the
repository: the unit converter (src/services/unitConverter.ts), the grid
layout calculator and the two export orchestrators
(src/services/exportService.ts), and the barcode-collection reducer
(src/App.tsx / src/unnamed/part_000).  JavaScript numbers are modelled as
rationals; `Math.round` and `Number.prototype.toFixed` are modelled exactly
(both round half toward positive infinity per the ECMAScript spec); the
theorems below only visit inputs where rational arithmetic and binary
floating point agree, away from division by zero.
-/

namespace BarcodeStudio

/-- Rounding as performed by JavaScript `Math.round`: half-way cases go
toward positive infinity. -/
def jsRound (q : ℚ) : ℤ := ⌊q + 1 / 2⌋

/-- Rounding as performed by `Number(x.toFixed(2))`: nearest multiple of
`1/100`, half-way cases toward positive infinity (ECMAScript picks the
larger candidate integer). -/
def toFixed2 (q : ℚ) : ℚ := ((jsRound (q * 100) : ℤ) : ℚ) / 100

/-- Truncation toward zero, as used by the JavaScript `%` operator. -/
def jsTrunc (q : ℚ) : ℤ := if 0 ≤ q then ⌊q⌋ else ⌈q⌉

/-- The JavaScript remainder operator `a % b` (sign follows the dividend). -/
def jsMod (a b : ℚ) : ℚ := a - b * ((jsTrunc (a / b) : ℤ) : ℚ)

/-- Measurement units, from the `Unit` enum in src (types module). -/
inductive Unit where
  | PX
  | IN
  | CM
  | MM
deriving DecidableEq, Repr

/-- UNIT_FACTORS from src/constants.tsx: conversion factor from inches to
the unit (px and in are 1, cm is 2.54, mm is 25.4). -/
def UNIT_FACTORS : Unit → ℚ
  | Unit.PX => 1
  | Unit.IN => 1
  | Unit.CM => 2.54
  | Unit.MM => 25.4

/-- convertToPx from src/services/unitConverter.ts: pixels pass through,
otherwise convert to inches and multiply by the DPI, rounding to the
nearest integer pixel. -/
def convertToPx (value : ℚ) (unit : Unit) (dpi : ℚ) : ℚ :=
  if unit = Unit.PX then value
  else ((jsRound (value / UNIT_FACTORS unit * dpi) : ℤ) : ℚ)

/-- convertFromPx from src/services/unitConverter.ts: pixels pass through,
otherwise divide by DPI to get inches, scale by the unit factor, and round
to two decimals for display. -/
def convertFromPx (px : ℚ) (targetUnit : Unit) (dpi : ℚ) : ℚ :=
  if targetUnit = Unit.PX then px
  else toFixed2 (px / dpi * UNIT_FACTORS targetUnit)

/-- Barcode symbologies, from the `BarcodeFormat` enum in src. -/
inductive BarcodeFormat where
  | EAN13 | EAN8 | UPCA | UPCE | ITF | ITF14 | ISBN | ISSN
  | JAN13 | JAN8 | CODE128 | CODE39 | CODE25 | CODABAR | MSI
  | PHARMACODE | POSTNET | QR
deriving DecidableEq, Repr

/-- A label record (`BarcodeItem` in src): payload, validity flag and the
1-based position field maintained by the reducer. -/
structure BarcodeItem where
  id : String
  data : String
  label : Option String := none
  description : Option String := none
  valid : Bool
  error : Option String := none
  index : ℕ
deriving DecidableEq, Repr

/-- Label configuration (`BarcodeConfig` in src). -/
structure BarcodeConfig where
  format : BarcodeFormat
  width : ℚ
  height : ℚ
  margin : ℚ
  unit : Unit
  dpi : ℚ
  displayText : Bool
  fontSize : ℚ
  barcodeColor : String
  backgroundColor : String
  textColor : String
deriving DecidableEq, Repr

/-- Named page sizes (`PageSizeType` in src). -/
inductive PageSizeType where
  | A3 | A4 | A5 | Letter | Legal | Tabloid | Custom
deriving DecidableEq, Repr

/-- Page orientation. -/
inductive Orientation where
  | portrait
  | landscape
deriving DecidableEq, Repr

/-- A commercial label-sheet template (`LabelTemplate` in src), as listed in
LABEL_TEMPLATES of src/constants.tsx. -/
structure LabelTemplate where
  name : String
  cols : ℕ
  rows : ℕ
  width : ℚ
  height : ℚ
  unit : Unit
deriving DecidableEq, Repr

/-- Page setup (`PageSetup` in src): page size, unit, orientation, four
margins, gutter and the optional label-template override. -/
structure PageSetup where
  pageSize : PageSizeType
  width : ℚ
  height : ℚ
  unit : Unit
  orientation : Orientation
  marginTop : ℚ
  marginBottom : ℚ
  marginLeft : ℚ
  marginRight : ℚ
  gutter : ℚ
  template : Option LabelTemplate := none
deriving DecidableEq, Repr

/-- LABEL_TEMPLATES from src/constants.tsx. -/
def LABEL_TEMPLATES : List LabelTemplate :=
  [ { name := "Avery 5160 (30 labels)", cols := 3, rows := 10, width := 2.625, height := 1, unit := Unit.IN },
    { name := "Avery 5161 (20 labels)", cols := 2, rows := 10, width := 4, height := 1, unit := Unit.IN },
    { name := "Avery 5163 (10 labels)", cols := 2, rows := 5, width := 4, height := 2, unit := Unit.IN },
    { name := "Avery 5167 (80 labels)", cols := 4, rows := 20, width := 1.75, height := 0.5, unit := Unit.IN } ]

/-- The local helper `toInches` of src/services/exportService.ts:
`value / UNIT_FACTORS[unit]`. -/
def toInches (value : ℚ) (unit : Unit) : ℚ := value / UNIT_FACTORS unit

/-- Grid-improvement suggestions.  The source pushes human-readable strings;
the embedding keeps the structured content (axis and the `toFixed(2)`-rounded
needed reduction in inches) and abstracts the surrounding English text. -/
inductive Suggestion where
  | reduceHoriz (amount : ℚ)
  | reduceVert (amount : ℚ)
  | tooLarge
deriving DecidableEq, Repr

/-- The grid result record (`GridResult` in src/services/exportService.ts). -/
structure GridResult where
  cols : ℤ
  rows : ℤ
  bWidth : ℚ
  bHeight : ℚ
  gutter : ℚ
  pWidth : ℚ
  pHeight : ℚ
  mLeft : ℚ
  mRight : ℚ
  mTop : ℚ
  mBottom : ℚ
  totalCapacity : ℤ
  efficiency : ℚ
  suggestions : List Suggestion
deriving DecidableEq, Repr

/-- Orientation-adjusted page width (the local `pWidth` of calculateGrid). -/
def pWidthEff (p : PageSetup) : ℚ :=
  if p.orientation = Orientation.portrait then p.width else p.height

/-- Orientation-adjusted page height (the local `pHeight` of calculateGrid). -/
def pHeightEff (p : PageSetup) : ℚ :=
  if p.orientation = Orientation.portrait then p.height else p.width

/-- Inch-normalized page width (`pW_in` in calculateGrid). -/
def pW_in (p : PageSetup) : ℚ := toInches (pWidthEff p) p.unit

/-- Inch-normalized page height (`pH_in` in calculateGrid). -/
def pH_in (p : PageSetup) : ℚ := toInches (pHeightEff p) p.unit

/-- Inch-normalized left margin (`mL_in` in calculateGrid). -/
def mL_in (p : PageSetup) : ℚ := toInches p.marginLeft p.unit

/-- Inch-normalized right margin (`mR_in` in calculateGrid). -/
def mR_in (p : PageSetup) : ℚ := toInches p.marginRight p.unit

/-- Inch-normalized top margin (`mT_in` in calculateGrid). -/
def mT_in (p : PageSetup) : ℚ := toInches p.marginTop p.unit

/-- Inch-normalized bottom margin (`mB_in` in calculateGrid). -/
def mB_in (p : PageSetup) : ℚ := toInches p.marginBottom p.unit

/-- Inch-normalized gutter (`gut_in` in calculateGrid). -/
def gut_in (p : PageSetup) : ℚ := toInches p.gutter p.unit

/-- Inch-normalized label width (`bW_in` in calculateGrid). -/
def bW_in (c : BarcodeConfig) : ℚ := toInches c.width c.unit

/-- Inch-normalized label height (`bH_in` in calculateGrid). -/
def bH_in (c : BarcodeConfig) : ℚ := toInches c.height c.unit

/-- Available printable width (`availableW` in calculateGrid):
`Math.max(0, pW_in - mL_in - mR_in)`. -/
def availableW (p : PageSetup) : ℚ := max 0 (pW_in p - mL_in p - mR_in p)

/-- Available printable height (`availableH` in calculateGrid). -/
def availableH (p : PageSetup) : ℚ := max 0 (pH_in p - mT_in p - mB_in p)

/-- The raw column count of calculateGrid before the final `Math.max(0, ·)`
clamp: `availableW > 0 ? Math.floor((availableW + gut_in + 0.0001) / (bW_in + gut_in)) : 0`. -/
def colsRaw (p : PageSetup) (c : BarcodeConfig) : ℤ :=
  if 0 < availableW p then ⌊(availableW p + gut_in p + 0.0001) / (bW_in c + gut_in p)⌋ else 0

/-- The raw row count of calculateGrid before the final clamp. -/
def rowsRaw (p : PageSetup) (c : BarcodeConfig) : ℤ :=
  if 0 < availableH p then ⌊(availableH p + gut_in p + 0.0001) / (bH_in c + gut_in p)⌋ else 0

/-- The `usedArea` local of calculateGrid:
`(cols > 0 && rows > 0) ? (cols * bW_in) * (rows * bH_in) : 0`. -/
def usedArea (p : PageSetup) (c : BarcodeConfig) : ℚ :=
  if 0 < colsRaw p c ∧ 0 < rowsRaw p c
  then ((colsRaw p c : ℚ) * bW_in c) * ((rowsRaw p c : ℚ) * bH_in c)
  else 0

/-- The `totalArea` local of calculateGrid: the full orientation-adjusted
page area `pW_in * pH_in` (note: the margins are NOT subtracted here). -/
def totalArea (p : PageSetup) : ℚ := pW_in p * pH_in p

/-- The `efficiency` local of calculateGrid:
`totalArea > 0 ? (usedArea / totalArea) * 100 : 0`. -/
def efficiencyCalc (p : PageSetup) (c : BarcodeConfig) : ℚ :=
  if 0 < totalArea p then usedArea p c / totalArea p * 100 else 0

/-- The suggestion engine of calculateGrid (string text abstracted, see
`Suggestion`); thresholds and `toFixed(2)` amounts as in the source. -/
def suggestionsCalc (p : PageSetup) (c : BarcodeConfig) : List Suggestion :=
  if 0 < colsRaw p c ∧ 0 < rowsRaw p c then
    (let remW := jsMod (availableW p + gut_in p) (bW_in c + gut_in p)
     let neededForNextCol := (bW_in c + gut_in p) - remW
     if neededForNextCol < 0.3 then [Suggestion.reduceHoriz (toFixed2 neededForNextCol)] else []) ++
    (let remH := jsMod (availableH p + gut_in p) (bH_in c + gut_in p)
     let neededForNextRow := (bH_in c + gut_in p) - remH
     if neededForNextRow < 0.3 then [Suggestion.reduceVert (toFixed2 neededForNextRow)] else [])
  else if 0 < availableW p ∧ 0 < availableH p then [Suggestion.tooLarge]
  else []

/-- calculateGrid from src/services/exportService.ts.  The source's local
let-chain is factored into the named definitions above (same formulas); the
result record is assembled exactly as in the source, including the final
`Math.max(0, ·)` clamps.  `pageSetup.template` is never read. -/
def calculateGrid (p : PageSetup) (c : BarcodeConfig) : GridResult :=
  { cols := max 0 (colsRaw p c)
    rows := max 0 (rowsRaw p c)
    bWidth := c.width
    bHeight := c.height
    gutter := p.gutter
    pWidth := pWidthEff p
    pHeight := pHeightEff p
    mLeft := p.marginLeft
    mRight := p.marginRight
    mTop := p.marginTop
    mBottom := p.marginBottom
    totalCapacity := max 0 (colsRaw p c * rowsRaw p c)
    efficiency := efficiencyCalc p c
    suggestions := suggestionsCalc p c }

/-- Sanitization of one character, from the regex replace
`data.replace(/[^a-z0-9]/gi, '_')` in exportAsZip: ASCII letters and digits
pass through, everything else becomes an underscore. -/
def sanitizeChar (ch : Char) : Char :=
  if ('a' ≤ ch ∧ ch ≤ 'z') ∨ ('A' ≤ ch ∧ ch ≤ 'Z') ∨ ('0' ≤ ch ∧ ch ≤ '9')
  then ch else '_'

/-- Filesystem-safe slug of a payload, as computed in exportAsZip (the
per-character regex replace, expressed over the string's character list). -/
def sanitize (s : String) : String := String.mk (s.data.map sanitizeChar)

/-- The base64 part of a data URL: `dataUrl.split(',')[1]` (an absent part is
modelled as the empty string). -/
def base64Part (dataUrl : String) : String := (dataUrl.splitOn ",").getD 1 ""

/-- Outcome of an archive export run: folder name, named entries written,
the sequence of percentages passed to onProgress, and whether a file was
saved at the end. -/
structure ZipOutcome where
  folder : String
  entries : List (String × String)
  progress : List ℤ
  saved : Bool
deriving DecidableEq, Repr

/-- The body of the `for` loop of exportAsZip, recursing over the remaining
valid records with `i` the current 0-based loop counter and `n` the total
count of valid records.  For each item the renderer is invoked; a non-empty
data URL is written as `<sanitized>_<i+1>.png`; onProgress is then called
with `Math.round(((i+1)/n)*100)`. -/
def zipLoop (render : BarcodeItem → BarcodeConfig → String) (c : BarcodeConfig)
    (n : ℕ) : ℕ → List BarcodeItem → List (String × String) × List ℤ
  | _, [] => ([], [])
  | i, item :: rest =>
    let dataUrl := render item c
    let next := zipLoop render c n (i + 1) rest
    let entries :=
      if dataUrl = "" then next.1
      else (sanitize item.data ++ "_" ++ toString (i + 1) ++ ".png", base64Part dataUrl) :: next.1
    (entries, jsRound (((i + 1 : ℕ) : ℚ) / (n : ℚ) * 100) :: next.2)

/-- exportAsZip from src/services/exportService.ts, with the asynchronous
renderer `renderBarcodeToDataUrl` abstracted as a function argument.  The
input list is filtered to valid records; with zero valid records the
function returns before writing anything (saved = false). -/
def exportAsZip (render : BarcodeItem → BarcodeConfig → String)
    (barcodes : List BarcodeItem) (c : BarcodeConfig) : ZipOutcome :=
  let validBarcodes := barcodes.filter (·.valid)
  if validBarcodes.length = 0 then
    { folder := "barcodes", entries := [], progress := [], saved := false }
  else
    let r := zipLoop render c validBarcodes.length 0 validBarcodes
    { folder := "barcodes", entries := r.1, progress := r.2, saved := true }

/-- One image placed on a PDF page: the cell coordinates (in page units) and
the embedded data URL, `none` when the renderer returned an empty result and
the embed was skipped. -/
structure Placement where
  x : ℚ
  y : ℚ
  image : Option String
deriving DecidableEq, Repr

/-- Outcome of a document export run: the user-facing alert (if the guard
fired), the pages with their placements, the onProgress percentages, and
whether a file was saved. -/
structure PdfOutcome where
  alertMsg : Option String
  pages : List (List Placement)
  progress : List ℤ
  saved : Bool
deriving DecidableEq, Repr

/-- The page `while` loop of exportAsPdf.  `cpp` is the number of cells per
page (`grid.rows * grid.cols`), `cols` the column count, `n` the total valid
count, and `count` the number of records consumed so far.  The double
`for r / for c` loop with its early break is flattened row-major: cell `j`
of a page sits at row `j / cols`, column `j % cols`.  After each page,
onProgress is called with `Math.round((count/n)*100)`.  A `cpp` of zero
would make the source loop spin forever; the model returns no output there
(no theorem below visits that region). -/
def pdfLoop (render : BarcodeItem → BarcodeConfig → String) (c : BarcodeConfig)
    (cpp cols n : ℕ) (bWp bHp gutp xStart yStart : ℚ)
    (count : ℕ) (items : List BarcodeItem) : List (List Placement) × List ℤ :=
  match items with
  | [] => ([], [])
  | item :: rest =>
    match cpp with
    | 0 => ([], [])
    | k + 1 =>
      let pageItems := (item :: rest).take (k + 1)
      let page : List Placement := pageItems.enum.map (fun q =>
        let r := q.1 / cols
        let col := q.1 % cols
        let d := render q.2 c
        { x := xStart + (col : ℚ) * (bWp + gutp)
          y := yStart + (r : ℚ) * (bHp + gutp)
          image := if d = "" then none else some d })
      let m := pageItems.length
      let next := pdfLoop render c cpp cols n bWp bHp gutp xStart yStart (count + m) (rest.drop k)
      (page :: next.1, jsRound (((count + m : ℕ) : ℚ) / (n : ℚ) * 100) :: next.2)
termination_by items.length
decreasing_by simp [List.length_drop]; omega

/-- exportAsPdf from src/services/exportService.ts, renderer abstracted.
The grid is computed and the input filtered to valid records; if there are
no valid records or the grid capacity is not positive, the function alerts
and returns before building any page or saving a file.  Otherwise the label
size is rescaled into page units, the grid footprint is centered inside the
margins, and records are placed row-major across as many pages as needed.
(The jsPDF document metadata — unit string, page format, timestamped file
name — does not affect placements or progress and is not modelled.) -/
def exportAsPdf (render : BarcodeItem → BarcodeConfig → String)
    (barcodes : List BarcodeItem) (c : BarcodeConfig) (p : PageSetup) : PdfOutcome :=
  let grid := calculateGrid p c
  let validBarcodes := barcodes.filter (·.valid)
  if validBarcodes.length = 0 ∨ grid.totalCapacity ≤ 0 then
    { alertMsg := some "Invalid layout or no valid barcodes.", pages := [], progress := [], saved := false }
  else
    let scale := UNIT_FACTORS p.unit / UNIT_FACTORS c.unit
    let bWp := c.width * scale
    let bHp := c.height * scale
    let gutp := p.gutter
    let actualGridW := (grid.cols : ℚ) * bWp + ((grid.cols : ℚ) - 1) * gutp
    let actualGridH := (grid.rows : ℚ) * bHp + ((grid.rows : ℚ) - 1) * gutp
    let xStart := p.marginLeft + (grid.pWidth - p.marginLeft - p.marginRight - actualGridW) / 2
    let yStart := p.marginTop + (grid.pHeight - p.marginTop - p.marginBottom - actualGridH) / 2
    let r := pdfLoop render c (grid.rows.toNat * grid.cols.toNat) grid.cols.toNat
      validBarcodes.length bWp bHp gutp xStart yStart 0 validBarcodes
    { alertMsg := none, pages := r.1, progress := r.2, saved := true }

/-- Reducer actions on the barcode collection (the `Action` union type of
src/App.tsx). -/
inductive Action where
  | addBatch (payload : List BarcodeItem)
  | deleteIds (payload : List String)
  | clearAll
  | restore (payload : List BarcodeItem)
deriving DecidableEq, Repr

/-- Discriminator for the RESTORE action. -/
def Action.isRestore : Action → Bool
  | Action.restore _ => true
  | _ => false

/-- barcodesReducer from src/App.tsx (identical in src/unnamed/part_000):
ADD_BATCH appends the payload renumbered from the last existing index;
DELETE_IDS filters and renumbers from 1; CLEAR_ALL empties; RESTORE replaces
the collection wholesale. -/
def barcodesReducer (state : List BarcodeItem) (action : Action) : List BarcodeItem :=
  match action with
  | Action.addBatch payload =>
    let lastIndex : ℕ :=
      match state.getLast? with
      | some item => item.index
      | none => 0
    let newItems := payload.enum.map (fun q => { q.2 with index := lastIndex + q.1 + 1 })
    state ++ newItems
  | Action.deleteIds payload =>
    let remaining := state.filter (fun item => ¬ payload.contains item.id)
    remaining.enum.map (fun q => { q.2 with index := q.1 + 1 })
  | Action.clearAll => []
  | Action.restore payload => payload

/-- The renumbering invariant: every item's index field is its 1-based
position in the list. -/
def IndexedOk (l : List BarcodeItem) : Prop :=
  l.map (·.index) = List.range' 1 l.length

/-! ### Concrete fixtures used by witnesses and counterexamples -/

/-- A 10in by 10in custom page, 1in margins all around, no gutter. -/
def pageTen : PageSetup :=
  { pageSize := PageSizeType.Custom, width := 10, height := 10, unit := Unit.IN,
    orientation := Orientation.portrait, marginTop := 1, marginBottom := 1,
    marginLeft := 1, marginRight := 1, gutter := 0, template := none }

/-- The same page with a half-inch gutter. -/
def pageTenHalfGut : PageSetup := { pageTen with gutter := 0.5 }

/-- A degenerate page of 0.0001in by 0.0001in with zero margins. -/
def pageTiny : PageSetup :=
  { pageTen with
      width := 0.0001
      height := 0.0001
      marginTop := 0
      marginBottom := 0
      marginLeft := 0
      marginRight := 0 }

/-- A 2in by 2in Code128 label configuration. -/
def cfgTwo : BarcodeConfig :=
  { format := BarcodeFormat.CODE128, width := 2, height := 2, margin := 0.1,
    unit := Unit.IN, dpi := 300, displayText := true, fontSize := 10,
    barcodeColor := "#000000", backgroundColor := "#ffffff", textColor := "#000000" }

/-- A 1in by 1in label configuration. -/
def cfgOne : BarcodeConfig := { cfgTwo with width := 1, height := 1 }

/-- A label configuration with width 0 (and height 1in). -/
def cfgZeroWidth : BarcodeConfig := { cfgTwo with width := 0, height := 1 }

/-- A 0.0001in by 0.0001in label configuration. -/
def cfgTiny : BarcodeConfig := { cfgTwo with width := 0.0001, height := 0.0001 }

/-- The first entry of LABEL_TEMPLATES: a 3-column, 10-row template. -/
def avery5160 : LabelTemplate :=
  { name := "Avery 5160 (30 labels)", cols := 3, rows := 10, width := 2.625, height := 1, unit := Unit.IN }

/-- The half-inch-gutter page with the Avery 5160 template selected. -/
def pageTemplated : PageSetup := { pageTenHalfGut with template := some avery5160 }

/-- A renderer stub that always succeeds with a fixed PNG data URL. -/
def renderAlways : BarcodeItem → BarcodeConfig → String :=
  fun _ _ => "data:image/png;base64,QUJD"

/-- A valid record with payload A. -/
def itemA : BarcodeItem := { id := "a", data := "A", valid := true, index := 1 }

/-- A valid record with payload B. -/
def itemB : BarcodeItem := { id := "b", data := "B", valid := true, index := 2 }

/-- An invalid record. -/
def itemInvalid : BarcodeItem := { id := "x", data := "A-1", valid := false, index := 1 }

/-! ### Numeric helper lemmas -/

/-- JavaScript rounding moves a value by at most one half. -/
theorem jsRound_abs (q : ℚ) : |((jsRound q : ℤ) : ℚ) - q| ≤ 1 / 2 := by
  have h1 : ((jsRound q : ℤ) : ℚ) ≤ q + 1 / 2 := Int.floor_le (q + 1 / 2)
  have h2 : q + 1 / 2 < ((jsRound q : ℤ) : ℚ) + 1 := Int.lt_floor_add_one (q + 1 / 2)
  rw [abs_le]
  constructor <;> linarith

/-- jsRound is monotone. -/
theorem jsRound_mono {a b : ℚ} (h : a ≤ b) : jsRound a ≤ jsRound b :=
  Int.floor_le_floor (by linarith)

/-- Two-decimal display rounding moves a value by at most 1/200. -/
theorem toFixed2_abs (q : ℚ) : |toFixed2 q - q| ≤ 1 / 200 := by
  have h := jsRound_abs (q * 100)
  unfold toFixed2
  have : ((jsRound (q * 100) : ℤ) : ℚ) / 100 - q = (((jsRound (q * 100) : ℤ) : ℚ) - q * 100) / 100 := by
    ring
  rw [this, abs_div]
  have h100 : |(100 : ℚ)| = 100 := by norm_num
  rw [h100]
  linarith [abs_nonneg (((jsRound (q * 100) : ℤ) : ℚ) - q * 100)]

/-- A percentage `Math.round((k/n)*100)` with `1 ≤ k ≤ n` lies in [0, 100]. -/
theorem jsRound_pct_bounds {k n : ℕ} (hk : 1 ≤ k) (hkn : k ≤ n) :
    0 ≤ jsRound ((k : ℚ) / (n : ℚ) * 100) ∧ jsRound ((k : ℚ) / (n : ℚ) * 100) ≤ 100 := by
  have hn : 0 < (n : ℚ) := by
    have : 0 < n := Nat.lt_of_lt_of_le hk hkn
    exact_mod_cast this
  have hq0 : 0 ≤ (k : ℚ) / (n : ℚ) * 100 := by positivity
  have hq1 : (k : ℚ) / (n : ℚ) * 100 ≤ 100 := by
    have hk' : (k : ℚ) ≤ (n : ℚ) := by exact_mod_cast hkn
    rw [div_mul_eq_mul_div, div_le_iff₀ hn]
    nlinarith
  have h0 : jsRound (0 : ℚ) = 0 := by norm_num [jsRound]
  have h100 : jsRound (100 : ℚ) = 100 := by norm_num [jsRound]
  constructor
  · have h := jsRound_mono hq0
    rw [h0] at h
    exact h
  · have h := jsRound_mono hq1
    rw [h100] at h
    exact h

/-- All unit factors are positive. -/
theorem UNIT_FACTORS_pos (u : Unit) : 0 < UNIT_FACTORS u := by
  cases u <;> norm_num [UNIT_FACTORS]

/-! ### Projection lemmas for calculateGrid -/

/-- Efficiency projection of the grid result. -/
theorem calculateGrid_efficiency (p : PageSetup) (c : BarcodeConfig) :
    (calculateGrid p c).efficiency = efficiencyCalc p c := rfl

/-- Column projection of the grid result. -/
theorem calculateGrid_cols (p : PageSetup) (c : BarcodeConfig) :
    (calculateGrid p c).cols = max 0 (colsRaw p c) := rfl

/-- Row projection of the grid result. -/
theorem calculateGrid_rows (p : PageSetup) (c : BarcodeConfig) :
    (calculateGrid p c).rows = max 0 (rowsRaw p c) := rfl

/-- Capacity projection of the grid result. -/
theorem calculateGrid_totalCapacity (p : PageSetup) (c : BarcodeConfig) :
    (calculateGrid p c).totalCapacity = max 0 (colsRaw p c * rowsRaw p c) := rfl

/-- With a positive label width and non-negative gutter the raw column count
is never negative. -/
theorem colsRaw_nonneg (p : PageSetup) (c : BarcodeConfig)
    (hbw : 0 < bW_in c) (hg : 0 ≤ gut_in p) : 0 ≤ colsRaw p c := by
  unfold colsRaw
  split
  · next h =>
    apply Int.floor_nonneg.mpr
    apply div_nonneg
    · have heps : (0.0001 : ℚ) = 1 / 10000 := by norm_num
      rw [heps]
      linarith
    · linarith
  · exact le_refl 0

/-- With a positive label height and non-negative gutter the raw row count
is never negative. -/
theorem rowsRaw_nonneg (p : PageSetup) (c : BarcodeConfig)
    (hbh : 0 < bH_in c) (hg : 0 ≤ gut_in p) : 0 ≤ rowsRaw p c := by
  unfold rowsRaw
  split
  · next h =>
    apply Int.floor_nonneg.mpr
    apply div_nonneg
    · have heps : (0.0001 : ℚ) = 1 / 10000 := by norm_num
      rw [heps]
      linarith
    · linarith
  · exact le_refl 0

/-! ### Claim C1 -/

/-- C1: the claim states that a zero label width forces columns = 0,
capacity = 0 and efficiency = 0.  The code has no such guard: on a 10in
square page with 1in margins and a 0.5in gutter, a width-0 label yields
17 columns and capacity 85 (the gutter alone is used as the column pitch);
only the efficiency happens to be 0 because the used area degenerates.
This theorem evaluates calculateGrid at that failing input. -/
theorem claim1_zero_width_unguarded :
    cfgZeroWidth.width = 0 ∧
    (calculateGrid pageTenHalfGut cfgZeroWidth).cols = 17 ∧
    (calculateGrid pageTenHalfGut cfgZeroWidth).rows = 5 ∧
    (calculateGrid pageTenHalfGut cfgZeroWidth).totalCapacity = 85 ∧
    (calculateGrid pageTenHalfGut cfgZeroWidth).efficiency = 0 := by
  refine ⟨rfl, ?_, ?_, ?_, ?_⟩ <;>
    norm_num [calculateGrid, efficiencyCalc, usedArea, totalArea, colsRaw, rowsRaw, availableW,
      availableH, pW_in, pH_in, mL_in, mR_in, mT_in, mB_in, gut_in, bW_in, bH_in,
      pWidthEff, pHeightEff, toInches, UNIT_FACTORS, pageTenHalfGut, pageTen, cfgZeroWidth, cfgTwo]

/-! ### Claim C2 -/

/-- C2 counterexample: with the Avery 5160 template (3 columns, 10 rows,
2.625in by 1in labels) selected on the page setup, calculateGrid still
returns the computed 5 columns and 5 rows for a 1in label with a 0.5in
gutter, and echoes the configured 1in label width — not the template's
fixed values.  The claim, as stated, is false at this input. -/
theorem claim2_counterexample :
    avery5160 ∈ LABEL_TEMPLATES ∧
    pageTemplated.template = some avery5160 ∧
    avery5160.cols = 3 ∧ avery5160.rows = 10 ∧ avery5160.width = 2.625 ∧
    (calculateGrid pageTemplated cfgOne).cols = 5 ∧
    (calculateGrid pageTemplated cfgOne).rows = 5 ∧
    (calculateGrid pageTemplated cfgOne).bWidth = 1 ∧
    (calculateGrid pageTemplated cfgOne).cols ≠ (avery5160.cols : ℤ) ∧
    (calculateGrid pageTemplated cfgOne).rows ≠ (avery5160.rows : ℤ) ∧
    (calculateGrid pageTemplated cfgOne).bWidth ≠ avery5160.width := by
  refine ⟨?_, rfl, rfl, rfl, rfl, ?_, ?_, ?_, ?_, ?_, ?_⟩
  · simp [LABEL_TEMPLATES, avery5160]
  all_goals
    norm_num [calculateGrid, colsRaw, rowsRaw, availableW, availableH, pW_in, pH_in,
      mL_in, mR_in, mT_in, mB_in, gut_in, bW_in, bH_in, pWidthEff, pHeightEff,
      toInches, UNIT_FACTORS, pageTemplated, pageTenHalfGut, pageTen, cfgOne, cfgTwo,
      avery5160]

/-- C2 amended: calculateGrid ignores the label-template override entirely;
its result is the same whatever `template` field the page setup carries
(the computed columns, rows and configured label size are always used). -/
theorem claim2_template_ignored (p : PageSetup) (c : BarcodeConfig)
    (t : Option LabelTemplate) :
    calculateGrid { p with template := t } c = calculateGrid p c := rfl

/-! ### Claim C3 -/

/-- Modelled from the spec's words for claim C3 only (not from the source):
efficiency as the claim describes it, with used area = capacity times label
width times height and total area = availableWidth times availableHeight,
the printable area after subtracting margins. -/
def efficiencySpecClaim (p : PageSetup) (c : BarcodeConfig) : ℚ :=
  let used := ((calculateGrid p c).totalCapacity : ℚ) * (bW_in c * bH_in c)
  let total := availableW p * availableH p
  if 0 < total then used / total * 100 else 0

/-- C3 counterexample: on the 10in page with 1in margins and 2in labels the
code returns efficiency 64 (it divides by the full 10x10 page area), while
the claim's formula over the printable 8x8 area gives 100.  The claim, as
stated, is false at this input. -/
theorem claim3_counterexample :
    (calculateGrid pageTen cfgTwo).efficiency = 64 ∧
    efficiencySpecClaim pageTen cfgTwo = 100 ∧
    (calculateGrid pageTen cfgTwo).efficiency ≠ efficiencySpecClaim pageTen cfgTwo := by
  refine ⟨?_, ?_, ?_⟩ <;>
    norm_num [calculateGrid, efficiencySpecClaim, efficiencyCalc, usedArea, totalArea,
      colsRaw, rowsRaw, availableW, availableH, pW_in, pH_in, mL_in, mR_in, mT_in, mB_in,
      gut_in, bW_in, bH_in, pWidthEff, pHeightEff, toInches, UNIT_FACTORS, pageTen, cfgTwo]

/-- C3 amended: for label configurations with positive inch dimensions and a
non-negative gutter, the efficiency returned by calculateGrid equals
usedArea / totalArea * 100 with usedArea = totalCapacity * labelWidth *
labelHeight and totalArea the FULL orientation-adjusted page area
pW_in * pH_in (the margins are not subtracted), and equals 0 when that page
area is not positive. -/
theorem claim3_efficiency_formula (p : PageSetup) (c : BarcodeConfig)
    (hbw : 0 < bW_in c) (hbh : 0 < bH_in c) (hg : 0 ≤ gut_in p) :
    (calculateGrid p c).efficiency =
      if 0 < pW_in p * pH_in p
      then ((calculateGrid p c).totalCapacity : ℚ) * (bW_in c * bH_in c)
        / (pW_in p * pH_in p) * 100
      else 0 := by
  have hcr := colsRaw_nonneg p c hbw hg
  have hrr := rowsRaw_nonneg p c hbh hg
  rw [calculateGrid_efficiency, calculateGrid_totalCapacity,
    max_eq_right (mul_nonneg hcr hrr)]
  unfold efficiencyCalc totalArea usedArea
  by_cases hpos : 0 < colsRaw p c ∧ 0 < rowsRaw p c
  · rw [if_pos hpos]
    have : ((colsRaw p c : ℚ) * bW_in c) * ((rowsRaw p c : ℚ) * bH_in c)
        = ((colsRaw p c * rowsRaw p c : ℤ) : ℚ) * (bW_in c * bH_in c) := by
      push_cast
      ring
    rw [this]
  · rw [if_neg hpos]
    have hzero : colsRaw p c * rowsRaw p c = 0 := by
      rcases not_and_or.mp hpos with h | h
      · have : colsRaw p c = 0 := le_antisymm (not_lt.mp h) hcr
        rw [this, zero_mul]
      · have : rowsRaw p c = 0 := le_antisymm (not_lt.mp h) hrr
        rw [this, mul_zero]
    rw [hzero]
    simp

/-- C3 amended witness at the 10in-page fixture. -/
theorem claim3_efficiency_formula_witness :
    (0 < bW_in cfgTwo ∧ 0 < bH_in cfgTwo ∧ 0 ≤ gut_in pageTen) ∧
    (calculateGrid pageTen cfgTwo).efficiency =
      if 0 < pW_in pageTen * pH_in pageTen
      then ((calculateGrid pageTen cfgTwo).totalCapacity : ℚ)
        * (bW_in cfgTwo * bH_in cfgTwo) / (pW_in pageTen * pH_in pageTen) * 100
      else 0 :=
  ⟨⟨by norm_num [bW_in, toInches, UNIT_FACTORS, cfgTwo],
    by norm_num [bH_in, toInches, UNIT_FACTORS, cfgTwo],
    by norm_num [gut_in, toInches, UNIT_FACTORS, pageTen]⟩,
   claim3_efficiency_formula pageTen cfgTwo
     (by norm_num [bW_in, toInches, UNIT_FACTORS, cfgTwo])
     (by norm_num [bH_in, toInches, UNIT_FACTORS, cfgTwo])
     (by norm_num [gut_in, toInches, UNIT_FACTORS, pageTen])⟩

/-! ### Claim C4 -/

/-- At an exact fit, the epsilon-padded floor division returns exactly N. -/
theorem floor_exact_fit {a b g : ℚ} {N : ℕ} (hN : 1 ≤ N) (hb : 0 < b) (hg : 0 ≤ g)
    (hwell : (0.0001 : ℚ) < b + g) (hfit : a = (N : ℚ) * b + ((N : ℚ) - 1) * g) :
    ⌊(a + g + 0.0001) / (b + g)⌋ = N ∧ 0 < a := by
  have hN1 : (1 : ℚ) ≤ (N : ℚ) := by exact_mod_cast hN
  have hbg : 0 < b + g := by
    have : (0 : ℚ) < 0.0001 := by norm_num
    linarith
  have ha : 0 < a := by
    rw [hfit]
    nlinarith
  have hnum : a + g + 0.0001 = (N : ℚ) * (b + g) + 0.0001 := by
    rw [hfit]
    ring
  have hquot : (a + g + 0.0001) / (b + g) = (N : ℚ) + 0.0001 / (b + g) := by
    rw [hnum]
    field_simp
  refine ⟨?_, ha⟩
  rw [hquot]
  have hd0 : 0 ≤ (0.0001 : ℚ) / (b + g) := by positivity
  have hd1 : (0.0001 : ℚ) / (b + g) < 1 := (div_lt_one hbg).mpr hwell
  rw [Int.floor_eq_iff]
  constructor
  · push_cast
    linarith
  · push_cast
    linarith

/-- C4: when the available printable width is exactly
N * labelWidth + (N-1) * gutter (and symmetrically the height is exactly
M * labelHeight + (M-1) * gutter), with positive label dimensions,
non-negative gutter and the label-plus-gutter pitch above the 1e-4 epsilon,
calculateGrid returns exactly N columns and M rows — the epsilon absorbs the
boundary without overshooting. -/
theorem claim4_exact_fit (p : PageSetup) (c : BarcodeConfig) :
    (∀ N : ℕ, 1 ≤ N → 0 < bW_in c → 0 ≤ gut_in p →
      (0.0001 : ℚ) < bW_in c + gut_in p →
      availableW p = (N : ℚ) * bW_in c + ((N : ℚ) - 1) * gut_in p →
      (calculateGrid p c).cols = N) ∧
    (∀ M : ℕ, 1 ≤ M → 0 < bH_in c → 0 ≤ gut_in p →
      (0.0001 : ℚ) < bH_in c + gut_in p →
      availableH p = (M : ℚ) * bH_in c + ((M : ℚ) - 1) * gut_in p →
      (calculateGrid p c).rows = M) := by
  constructor
  · intro N hN hbw hg hwellW hfitW
    obtain ⟨hfloorW, haW⟩ := floor_exact_fit hN hbw hg hwellW hfitW
    have hcols : colsRaw p c = N := by
      unfold colsRaw
      rw [if_pos haW]
      exact hfloorW
    rw [calculateGrid_cols, hcols]
    exact max_eq_right (by positivity)
  · intro M hM hbh hg hwellH hfitH
    obtain ⟨hfloorH, haH⟩ := floor_exact_fit hM hbh hg hwellH hfitH
    have hrows : rowsRaw p c = M := by
      unfold rowsRaw
      rw [if_pos haH]
      exact hfloorH
    rw [calculateGrid_rows, hrows]
    exact max_eq_right (by positivity)

/-- C4 witness: the 10in page with 1in margins, zero gutter and 2in labels
is an exact 4x4 fit, and calculateGrid returns 4 columns and 4 rows. -/
theorem claim4_exact_fit_witness :
    availableW pageTen = (4 : ℚ) * bW_in cfgTwo + ((4 : ℚ) - 1) * gut_in pageTen ∧
    (calculateGrid pageTen cfgTwo).cols = 4 ∧ (calculateGrid pageTen cfgTwo).rows = 4 :=
  ⟨by norm_num [availableW, pW_in, mL_in, mR_in, gut_in, bW_in, pWidthEff, toInches,
      UNIT_FACTORS, pageTen, cfgTwo],
   (claim4_exact_fit pageTen cfgTwo).1 4 (by norm_num)
     (by norm_num [bW_in, toInches, UNIT_FACTORS, cfgTwo])
     (by norm_num [gut_in, toInches, UNIT_FACTORS, pageTen])
     (by norm_num [bW_in, gut_in, toInches, UNIT_FACTORS, cfgTwo, pageTen])
     (by norm_num [availableW, pW_in, mL_in, mR_in, gut_in, bW_in, pWidthEff, toInches,
        UNIT_FACTORS, pageTen, cfgTwo]),
   (claim4_exact_fit pageTen cfgTwo).2 4 (by norm_num)
     (by norm_num [bH_in, toInches, UNIT_FACTORS, cfgTwo])
     (by norm_num [gut_in, toInches, UNIT_FACTORS, pageTen])
     (by norm_num [bH_in, gut_in, toInches, UNIT_FACTORS, cfgTwo, pageTen])
     (by norm_num [availableH, pH_in, mT_in, mB_in, gut_in, bH_in, pHeightEff, toInches,
        UNIT_FACTORS, pageTen, cfgTwo])⟩

/-! ### Claim C5 -/

/-- The epsilon-padded floor never claims more than the available span plus
the epsilon: a positive raw count times the label size is at most a + 1e-4. -/
theorem floor_mul_le {a b g : ℚ} (hb : 0 < b) (hg : 0 ≤ g) (ha : 0 < a)
    (hcr : 0 < ⌊(a + g + 0.0001) / (b + g)⌋) :
    (⌊(a + g + 0.0001) / (b + g)⌋ : ℚ) * b ≤ a + 0.0001 := by
  have hbg : 0 < b + g := by linarith
  have h1 : ((⌊(a + g + 0.0001) / (b + g)⌋ : ℤ) : ℚ) ≤ (a + g + 0.0001) / (b + g) :=
    Int.floor_le _
  have h2 : ((⌊(a + g + 0.0001) / (b + g)⌋ : ℤ) : ℚ) * (b + g) ≤ a + g + 0.0001 := by
    rw [← le_div_iff₀ hbg]
    exact h1
  have hcr1 : (1 : ℚ) ≤ ((⌊(a + g + 0.0001) / (b + g)⌋ : ℤ) : ℚ) := by
    exact_mod_cast hcr
  nlinarith [mul_nonneg (by linarith : (0 : ℚ) ≤ ((⌊(a + g + 0.0001) / (b + g)⌋ : ℤ) : ℚ) - 1) hg]

/-- The used area is never negative (for positive label dimensions). -/
theorem usedArea_nonneg (p : PageSetup) (c : BarcodeConfig)
    (hbw : 0 < bW_in c) (hbh : 0 < bH_in c) : 0 ≤ usedArea p c := by
  unfold usedArea
  split
  · next h =>
    have h1 : (0 : ℚ) ≤ (colsRaw p c : ℚ) := by exact_mod_cast le_of_lt h.1
    have h2 : (0 : ℚ) ≤ (rowsRaw p c : ℚ) := by exact_mod_cast le_of_lt h.2
    positivity
  · exact le_refl 0

/-- C5 amended: the claim's bound efficiency ∈ [0, 100] fails for margin
sums below the 1e-4in epsilon (see the counterexample); it holds once each
margin pair sums to at least the epsilon.  Hypotheses: positive page
dimensions, non-negative margins and gutter, positive label dimensions,
positive printable area, and margin sums of at least 0.0001in per axis. -/
theorem claim5_utilization_bound (p : PageSetup) (c : BarcodeConfig)
    (hpw : 0 < pW_in p) (hph : 0 < pH_in p)
    (hmL : 0 ≤ mL_in p) (hmR : 0 ≤ mR_in p) (hmT : 0 ≤ mT_in p) (hmB : 0 ≤ mB_in p)
    (hg : 0 ≤ gut_in p) (hbw : 0 < bW_in c) (hbh : 0 < bH_in c)
    (haW : 0 < availableW p) (haH : 0 < availableH p)
    (hEpsW : (0.0001 : ℚ) ≤ mL_in p + mR_in p)
    (hEpsH : (0.0001 : ℚ) ≤ mT_in p + mB_in p) :
    0 ≤ (calculateGrid p c).efficiency ∧ (calculateGrid p c).efficiency ≤ 100 := by
  have htot : 0 < totalArea p := mul_pos hpw hph
  have hused0 : 0 ≤ usedArea p c := usedArea_nonneg p c hbw hbh
  have heff : (calculateGrid p c).efficiency = usedArea p c / totalArea p * 100 := by
    rw [calculateGrid_efficiency]
    unfold efficiencyCalc
    rw [if_pos htot]
  have hrawW : 0 < pW_in p - mL_in p - mR_in p := by
    by_contra hcon
    push_neg at hcon
    have : availableW p = 0 := by
      unfold availableW
      exact max_eq_left hcon
    rw [this] at haW
    exact lt_irrefl 0 haW
  have hrawH : 0 < pH_in p - mT_in p - mB_in p := by
    by_contra hcon
    push_neg at hcon
    have : availableH p = 0 := by
      unfold availableH
      exact max_eq_left hcon
    rw [this] at haH
    exact lt_irrefl 0 haH
  have havWeq : availableW p = pW_in p - mL_in p - mR_in p := max_eq_right (le_of_lt hrawW)
  have havHeq : availableH p = pH_in p - mT_in p - mB_in p := max_eq_right (le_of_lt hrawH)
  have hle : usedArea p c ≤ totalArea p := by
    unfold usedArea
    split
    · next hpos =>
      have hcW : (colsRaw p c : ℚ) * bW_in c ≤ availableW p + 0.0001 := by
        have hcr : 0 < ⌊(availableW p + gut_in p + 0.0001) / (bW_in c + gut_in p)⌋ := by
          have : colsRaw p c = ⌊(availableW p + gut_in p + 0.0001) / (bW_in c + gut_in p)⌋ := by
            unfold colsRaw
            rw [if_pos haW]
          rw [← this]
          exact hpos.1
        have h := floor_mul_le hbw hg haW hcr
        have hXeq : colsRaw p c = ⌊(availableW p + gut_in p + 0.0001) / (bW_in c + gut_in p)⌋ := by
          unfold colsRaw
          rw [if_pos haW]
        rw [hXeq]
        exact h
      have hcH : (rowsRaw p c : ℚ) * bH_in c ≤ availableH p + 0.0001 := by
        have hXeq : rowsRaw p c = ⌊(availableH p + gut_in p + 0.0001) / (bH_in c + gut_in p)⌋ := by
          unfold rowsRaw
          rw [if_pos haH]
        have hcr : 0 < ⌊(availableH p + gut_in p + 0.0001) / (bH_in c + gut_in p)⌋ := by
          rw [← hXeq]
          exact hpos.2
        have h := floor_mul_le hbh hg haH hcr
        rw [hXeq]
        exact h
      have hW : (colsRaw p c : ℚ) * bW_in c ≤ pW_in p := by
        rw [havWeq] at hcW
        linarith
      have hH : (rowsRaw p c : ℚ) * bH_in c ≤ pH_in p := by
        rw [havHeq] at hcH
        linarith
      have hWn : 0 ≤ (colsRaw p c : ℚ) * bW_in c := by
        have : (0 : ℚ) ≤ (colsRaw p c : ℚ) := by exact_mod_cast le_of_lt hpos.1
        positivity
      have hHn : 0 ≤ (rowsRaw p c : ℚ) * bH_in c := by
        have : (0 : ℚ) ≤ (rowsRaw p c : ℚ) := by exact_mod_cast le_of_lt hpos.2
        positivity
      calc ((colsRaw p c : ℚ) * bW_in c) * ((rowsRaw p c : ℚ) * bH_in c)
          ≤ pW_in p * pH_in p := by
            apply mul_le_mul hW hH hHn (le_of_lt hpw)
        _ = totalArea p := rfl
    · exact le_of_lt htot
  constructor
  · rw [heff]
    positivity
  · rw [heff, div_mul_eq_mul_div, div_le_iff₀ htot]
    nlinarith

/-- C5 counterexample: on a 0.0001in square page with zero margins and a
0.0001in square label (all positive dimensions, positive printable area),
the epsilon double-counts the label and calculateGrid reports efficiency
400 — the claim's [0, 100] bound is false at this input. -/
theorem claim5_counterexample :
    0 < pW_in pageTiny ∧ 0 < pH_in pageTiny ∧
    0 < bW_in cfgTiny ∧ 0 < bH_in cfgTiny ∧
    0 < availableW pageTiny ∧ 0 < availableH pageTiny ∧
    (0 : ℚ) ≤ gut_in pageTiny ∧
    (calculateGrid pageTiny cfgTiny).efficiency = 400 ∧
    ¬ (calculateGrid pageTiny cfgTiny).efficiency ≤ 100 := by
  refine ⟨?_, ?_, ?_, ?_, ?_, ?_, ?_, ?_, ?_⟩ <;>
    norm_num [calculateGrid, efficiencyCalc, usedArea, totalArea, colsRaw, rowsRaw,
      availableW, availableH, pW_in, pH_in, mL_in, mR_in, mT_in, mB_in, gut_in, bW_in,
      bH_in, pWidthEff, pHeightEff, toInches, UNIT_FACTORS, pageTiny, pageTen, cfgTiny, cfgTwo]

/-- C5 amended witness at the 10in-page fixture (margins 1in ≥ 0.0001in). -/
theorem claim5_utilization_bound_witness :
    ((0.0001 : ℚ) ≤ mL_in pageTen + mR_in pageTen ∧ 0 < availableW pageTen) ∧
    0 ≤ (calculateGrid pageTen cfgTwo).efficiency ∧
    (calculateGrid pageTen cfgTwo).efficiency ≤ 100 :=
  ⟨⟨by norm_num [mL_in, mR_in, toInches, UNIT_FACTORS, pageTen],
    by norm_num [availableW, pW_in, mL_in, mR_in, pWidthEff, toInches, UNIT_FACTORS, pageTen]⟩,
   claim5_utilization_bound pageTen cfgTwo
     (by norm_num [pW_in, pWidthEff, toInches, UNIT_FACTORS, pageTen])
     (by norm_num [pH_in, pHeightEff, toInches, UNIT_FACTORS, pageTen])
     (by norm_num [mL_in, toInches, UNIT_FACTORS, pageTen])
     (by norm_num [mR_in, toInches, UNIT_FACTORS, pageTen])
     (by norm_num [mT_in, toInches, UNIT_FACTORS, pageTen])
     (by norm_num [mB_in, toInches, UNIT_FACTORS, pageTen])
     (by norm_num [gut_in, toInches, UNIT_FACTORS, pageTen])
     (by norm_num [bW_in, toInches, UNIT_FACTORS, cfgTwo])
     (by norm_num [bH_in, toInches, UNIT_FACTORS, cfgTwo])
     (by norm_num [availableW, pW_in, mL_in, mR_in, pWidthEff, toInches, UNIT_FACTORS, pageTen])
     (by norm_num [availableH, pH_in, mT_in, mB_in, pHeightEff, toInches, UNIT_FACTORS, pageTen])
     (by norm_num [mL_in, mR_in, toInches, UNIT_FACTORS, pageTen])
     (by norm_num [mT_in, mB_in, toInches, UNIT_FACTORS, pageTen])⟩

/-! ### Claim C6 -/

/-- The combined round-trip tolerance of the claim: half-pixel rounding
scaled back to the unit by factor/dpi, plus 0.005 from the two-decimal
display rounding; zero for the pixel unit. -/
def rtTol (u : Unit) (dpi : ℚ) : ℚ :=
  if u = Unit.PX then 0 else UNIT_FACTORS u / (2 * dpi) + 1 / 200

/-- C6: for every value, unit and positive DPI, converting to pixels and
back differs from the original by at most the combined rounding tolerance
(half a pixel scaled to the unit plus 0.005 display rounding), and for the
pixel unit the round trip is the exact identity. -/
theorem claim6_roundtrip (v : ℚ) (u : Unit) (dpi : ℚ) (h : 0 < dpi) :
    |convertFromPx (convertToPx v u dpi) u dpi - v| ≤ rtTol u dpi ∧
    (u = Unit.PX → convertFromPx (convertToPx v u dpi) u dpi = v) := by
  by_cases hu : u = Unit.PX
  · subst hu
    simp [convertToPx, convertFromPx, rtTol]
  · have hf : 0 < UNIT_FACTORS u := UNIT_FACTORS_pos u
    have hf0 : UNIT_FACTORS u ≠ 0 := ne_of_gt hf
    have hd0 : dpi ≠ 0 := ne_of_gt h
    refine ⟨?_, fun hpx => absurd hpx hu⟩
    unfold convertToPx convertFromPx rtTol
    rw [if_neg hu, if_neg hu, if_neg hu]
    have h1 : |((jsRound (v / UNIT_FACTORS u * dpi) : ℤ) : ℚ) - v / UNIT_FACTORS u * dpi| ≤ 1 / 2 :=
      jsRound_abs _
    have hkey : ((jsRound (v / UNIT_FACTORS u * dpi) : ℤ) : ℚ) / dpi * UNIT_FACTORS u - v
        = (((jsRound (v / UNIT_FACTORS u * dpi) : ℤ) : ℚ) - v / UNIT_FACTORS u * dpi)
          * (UNIT_FACTORS u / dpi) := by
      field_simp
      ring
    have h2 : |((jsRound (v / UNIT_FACTORS u * dpi) : ℤ) : ℚ) / dpi * UNIT_FACTORS u - v|
        ≤ UNIT_FACTORS u / (2 * dpi) := by
      rw [hkey, abs_mul, abs_of_pos (show (0 : ℚ) < UNIT_FACTORS u / dpi by positivity)]
      calc |((jsRound (v / UNIT_FACTORS u * dpi) : ℤ) : ℚ) - v / UNIT_FACTORS u * dpi|
            * (UNIT_FACTORS u / dpi)
          ≤ 1 / 2 * (UNIT_FACTORS u / dpi) := by
            apply mul_le_mul_of_nonneg_right h1 (by positivity)
        _ = UNIT_FACTORS u / (2 * dpi) := by ring
    have h3 := toFixed2_abs (((jsRound (v / UNIT_FACTORS u * dpi) : ℤ) : ℚ) / dpi * UNIT_FACTORS u)
    calc |toFixed2 (((jsRound (v / UNIT_FACTORS u * dpi) : ℤ) : ℚ) / dpi * UNIT_FACTORS u) - v|
        ≤ |toFixed2 (((jsRound (v / UNIT_FACTORS u * dpi) : ℤ) : ℚ) / dpi * UNIT_FACTORS u)
            - ((jsRound (v / UNIT_FACTORS u * dpi) : ℤ) : ℚ) / dpi * UNIT_FACTORS u|
          + |((jsRound (v / UNIT_FACTORS u * dpi) : ℤ) : ℚ) / dpi * UNIT_FACTORS u - v| :=
          abs_sub_le _ _ _
      _ ≤ UNIT_FACTORS u / (2 * dpi) + 1 / 200 := by linarith

/-- C6 witness: 3.14mm at 300 DPI round-trips to 3.13mm, within the
tolerance 25.4/600 + 0.005. -/
theorem claim6_roundtrip_witness :
    (0 : ℚ) < 300 ∧
    |convertFromPx (convertToPx (314 / 100) Unit.MM 300) Unit.MM 300 - 314 / 100|
      ≤ rtTol Unit.MM 300 :=
  ⟨by norm_num, (claim6_roundtrip (314 / 100) Unit.MM 300 (by norm_num)).1⟩

/-! ### Claim C7 -/

/-- C7: whenever there are zero valid records or the computed grid capacity
is not positive, exportAsPdf surfaces the user-facing alert and returns an
outcome with no pages, no placements, no progress calls and no saved file —
a guarded early return, not an exception. -/
theorem claim7_pdf_guard (render : BarcodeItem → BarcodeConfig → String)
    (barcodes : List BarcodeItem) (c : BarcodeConfig) (p : PageSetup)
    (h : (barcodes.filter (·.valid)).length = 0 ∨ (calculateGrid p c).totalCapacity ≤ 0) :
    exportAsPdf render barcodes c p =
      { alertMsg := some "Invalid layout or no valid barcodes.",
        pages := [], progress := [], saved := false } := by
  unfold exportAsPdf
  rw [if_pos h]

/-- C7 witness: with an empty record list the export aborts with the alert
and produces nothing. -/
theorem claim7_pdf_guard_witness :
    (([] : List BarcodeItem).filter (·.valid)).length = 0 ∧
    exportAsPdf renderAlways [] cfgTwo pageTen =
      { alertMsg := some "Invalid layout or no valid barcodes.",
        pages := [], progress := [], saved := false } :=
  ⟨rfl, claim7_pdf_guard renderAlways [] cfgTwo pageTen (Or.inl rfl)⟩

/-! ### Claim C8 -/

/-- The entry names produced by the zip loop are exactly the valid records
whose render succeeded, named by payload slug and 1-based loop position. -/
theorem zipLoop_entry_names (render : BarcodeItem → BarcodeConfig → String)
    (c : BarcodeConfig) (n : ℕ) :
    ∀ (l : List BarcodeItem) (i : ℕ),
      ((zipLoop render c n i l).1).map Prod.fst
        = (l.enumFrom i).filterMap (fun q =>
            if render q.2 c = "" then none
            else some (sanitize q.2.data ++ "_" ++ toString (q.1 + 1) ++ ".png"))
  | [], _ => by simp [zipLoop]
  | item :: rest, i => by
    simp only [zipLoop, List.enumFrom_cons, List.filterMap_cons]
    by_cases hd : render item c = ""
    · simp only [hd, if_pos rfl, if_true]
      simpa [hd] using zipLoop_entry_names render c n rest (i + 1)
    · simp only [hd, if_neg hd, List.map_cons]
      simpa [hd] using congrArg (List.cons (sanitize item.data ++ "_" ++ toString (i + 1) ++ ".png"))
        (zipLoop_entry_names render c n rest (i + 1))

/-- The zip loop writes one entry per remaining record whose render result
is non-empty. -/
theorem zipLoop_entry_count (render : BarcodeItem → BarcodeConfig → String)
    (c : BarcodeConfig) (n : ℕ) :
    ∀ (l : List BarcodeItem) (i : ℕ),
      ((zipLoop render c n i l).1).length
        = (l.filter (fun b => render b c != "")).length
  | [], _ => by simp [zipLoop]
  | item :: rest, i => by
    simp only [zipLoop, List.filter_cons]
    by_cases hd : render item c = ""
    · simp [hd, zipLoop_entry_count render c n rest (i + 1)]
    · simp [hd, zipLoop_entry_count render c n rest (i + 1)]

/-- C8 amended: exportAsZip produces exactly one entry per valid record
whose render succeeded; each entry is named by the record's sanitized
payload, an underscore, and the record's 1-based position WITHIN THE
FILTERED LIST OF VALID RECORDS (the loop counter), not the record's own
index field. -/
theorem claim8_zip_entries (render : BarcodeItem → BarcodeConfig → String)
    (barcodes : List BarcodeItem) (c : BarcodeConfig) :
    ((exportAsZip render barcodes c).entries).map Prod.fst
      = ((barcodes.filter (·.valid)).enum).filterMap (fun q =>
          if render q.2 c = "" then none
          else some (sanitize q.2.data ++ "_" ++ toString (q.1 + 1) ++ ".png")) ∧
    ((exportAsZip render barcodes c).entries).length
      = ((barcodes.filter (·.valid)).filter (fun b => render b c != "")).length := by
  unfold exportAsZip
  by_cases hlen : (barcodes.filter (·.valid)).length = 0
  · rw [List.length_eq_zero] at hlen
    simp [hlen]
  · simp only [if_neg hlen]
    constructor
    · rw [zipLoop_entry_names]
      rfl
    · exact zipLoop_entry_count render c (barcodes.filter (·.valid)).length
        (barcodes.filter (·.valid)) 0

/-- C8 counterexample: with an invalid record ahead of a valid one, the
single entry is named B_1.png (position within the filtered valid list),
while the record's own 1-based position field is 2, so the claim's name
B_2.png does not match.  The claim, as stated, is false at this input. -/
theorem claim8_counterexample :
    ((exportAsZip renderAlways [itemInvalid, itemB] cfgTwo).entries).map Prod.fst
      = ["B_1.png"] ∧
    itemB.valid = true ∧ itemB.index = 2 ∧
    sanitize itemB.data ++ "_" ++ toString itemB.index ++ ".png" = "B_2.png" ∧
    ("B_1.png" : String) ≠ "B_2.png" := by
  refine ⟨?_, rfl, rfl, ?_, ?_⟩
  · simp [exportAsZip, zipLoop, itemInvalid, itemB, renderAlways]
    decide
  · decide
  · decide

/-! ### Claim C9 -/

/-- Percentages are monotone in the numerator. -/
theorem pct_mono {n : ℕ} (hn : 0 < n) {a b : ℕ} (h : a ≤ b) :
    jsRound ((a : ℚ) / (n : ℚ) * 100) ≤ jsRound ((b : ℚ) / (n : ℚ) * 100) := by
  apply jsRound_mono
  have hnq : 0 < (n : ℚ) := by exact_mod_cast hn
  have hab : (a : ℚ) ≤ (b : ℚ) := by exact_mod_cast h
  gcongr

/-- The final percentage, at numerator = denominator, is exactly 100. -/
theorem pct_final {n : ℕ} (hn : 0 < n) : jsRound ((n : ℚ) / (n : ℚ) * 100) = 100 := by
  have hnq : (n : ℚ) ≠ 0 := by
    have : 0 < (n : ℚ) := by exact_mod_cast hn
    exact ne_of_gt this
  rw [div_self hnq, one_mul]
  norm_num [jsRound]

/-- Closed form of the zip loop's progress sequence: one percentage per
remaining item, at numerators i+1 up to i plus the remaining length. -/
theorem zipLoop_prog_eq (render : BarcodeItem → BarcodeConfig → String)
    (c : BarcodeConfig) (n : ℕ) :
    ∀ (l : List BarcodeItem) (i : ℕ),
      (zipLoop render c n i l).2
        = (List.range' (i + 1) l.length).map (fun k : ℕ => jsRound ((k : ℚ) / (n : ℚ) * 100))
  | [], _ => by simp [zipLoop]
  | item :: rest, i => by
    simp only [zipLoop, List.length_cons, List.range'_succ, List.map_cons]
    exact congrArg _ (zipLoop_prog_eq render c n rest (i + 1))

/-- A monotone function mapped over a contiguous range is a
non-decreasing chain. -/
theorem chain_le_map_range' (f : ℕ → ℤ) (hf : ∀ a b : ℕ, a ≤ b → f a ≤ f b) :
    ∀ (m s : ℕ), List.Chain' (· ≤ ·) ((List.range' s m).map f)
  | 0, _ => by simp
  | m + 1, s => by
    rw [List.range'_succ, List.map_cons, List.chain'_cons']
    refine ⟨?_, chain_le_map_range' f hf m (s + 1)⟩
    intro y hy
    cases m with
    | zero => simp at hy
    | succ m' =>
      rw [List.range'_succ, List.map_cons] at hy
      simp only [List.head?_cons, Option.mem_def, Option.some.injEq] at hy
      rw [← hy]
      exact hf s (s + 1) (Nat.le_succ s)

/-- Every percentage emitted by the page loop is `Math.round(j/n*100)` for
some cumulative count j strictly above the starting count and at most the
starting count plus the number of remaining records. -/
theorem pdfLoop_prog_mem (render : BarcodeItem → BarcodeConfig → String)
    (c : BarcodeConfig) (k cols n : ℕ) (bWp bHp gutp xS yS : ℚ) :
    ∀ (len : ℕ) (l : List BarcodeItem), l.length ≤ len → ∀ (count : ℕ) (v : ℤ),
      v ∈ (pdfLoop render c (k + 1) cols n bWp bHp gutp xS yS count l).2 →
      ∃ j : ℕ, count + 1 ≤ j ∧ j ≤ count + l.length ∧ v = jsRound ((j : ℚ) / (n : ℚ) * 100) := by
  intro len
  induction len with
  | zero =>
    intro l hl count v hv
    have : l = [] := List.eq_nil_of_length_eq_zero (Nat.le_zero.mp hl)
    subst this
    rw [pdfLoop] at hv
    simp at hv
  | succ len ih =>
    intro l hl count v hv
    match l with
    | [] =>
      rw [pdfLoop] at hv
      simp at hv
    | item :: rest =>
      rw [pdfLoop] at hv
      simp only [List.mem_cons] at hv
      have hm : ((item :: rest).take (k + 1)).length = min (k + 1) (rest.length + 1) := by
        simp [List.length_take]
        omega
      rcases hv with hv | hv
      · refine ⟨count + ((item :: rest).take (k + 1)).length, ?_, ?_, hv⟩
        · rw [hm]
          omega
        · rw [hm]
          simp only [List.length_cons]
          omega
      · have hdrop : (rest.drop k).length ≤ len := by
          rw [List.length_drop]
          simp only [List.length_cons] at hl
          omega
        obtain ⟨j, h1, h2, h3⟩ := ih (rest.drop k) hdrop
          (count + ((item :: rest).take (k + 1)).length) v hv
        rw [List.length_drop] at h2
        rw [hm] at h1 h2
        refine ⟨j, ?_, ?_, h3⟩
        · omega
        · simp only [List.length_cons]
          omega

/-- The page loop emits one percentage per page, so the progress list and
the page list have the same length. -/
theorem pdfLoop_prog_len (render : BarcodeItem → BarcodeConfig → String)
    (c : BarcodeConfig) (k cols n : ℕ) (bWp bHp gutp xS yS : ℚ) :
    ∀ (len : ℕ) (l : List BarcodeItem), l.length ≤ len → ∀ (count : ℕ),
      (pdfLoop render c (k + 1) cols n bWp bHp gutp xS yS count l).1.length
        = (pdfLoop render c (k + 1) cols n bWp bHp gutp xS yS count l).2.length := by
  intro len
  induction len with
  | zero =>
    intro l hl count
    have : l = [] := List.eq_nil_of_length_eq_zero (Nat.le_zero.mp hl)
    subst this
    rw [pdfLoop]
    rfl
  | succ len ih =>
    intro l hl count
    match l with
    | [] =>
      rw [pdfLoop]
      rfl
    | item :: rest =>
      rw [pdfLoop]
      simp only [List.length_cons]
      have hdrop : (rest.drop k).length ≤ len := by
        rw [List.length_drop]
        simp only [List.length_cons] at hl
        omega
      rw [ih (rest.drop k) hdrop]

/-- The last percentage emitted by the page loop corresponds to the full
consumed count. -/
theorem pdfLoop_prog_last (render : BarcodeItem → BarcodeConfig → String)
    (c : BarcodeConfig) (k cols n : ℕ) (bWp bHp gutp xS yS : ℚ) :
    ∀ (len : ℕ) (l : List BarcodeItem), l.length ≤ len → l ≠ [] → ∀ (count : ℕ),
      (pdfLoop render c (k + 1) cols n bWp bHp gutp xS yS count l).2.getLast?
        = some (jsRound (((count + l.length : ℕ) : ℚ) / (n : ℚ) * 100)) := by
  intro len
  induction len with
  | zero =>
    intro l hl hne count
    exact absurd (List.eq_nil_of_length_eq_zero (Nat.le_zero.mp hl)) hne
  | succ len ih =>
    intro l hl hne count
    match l with
    | [] => exact absurd rfl hne
    | item :: rest =>
      rw [pdfLoop]
      have hm : ((item :: rest).take (k + 1)).length = min (k + 1) (rest.length + 1) := by
        simp [List.length_take]
        omega
      by_cases hdrop : rest.drop k = []
      · rw [hdrop, pdfLoop]
        simp only [List.getLast?_singleton]
        have hlen0 : rest.length - k = 0 := by
          have := congrArg List.length hdrop
          rw [List.length_drop] at this
          simpa using this
        have : count + ((item :: rest).take (k + 1)).length = count + (item :: rest).length := by
          rw [hm]
          simp only [List.length_cons]
          omega
        rw [this]
      · have hdl : (rest.drop k).length ≤ len := by
          rw [List.length_drop]
          simp only [List.length_cons] at hl
          omega
        have ihv := ih (rest.drop k) hdl hdrop (count + ((item :: rest).take (k + 1)).length)
        obtain ⟨b, t, hbt⟩ := List.exists_cons_of_ne_nil
          (show (pdfLoop render c (k + 1) cols n bWp bHp gutp xS yS
            (count + ((item :: rest).take (k + 1)).length) (rest.drop k)).2 ≠ [] by
              intro hnil
              rw [hnil] at ihv
              simp at ihv)
        rw [hbt, List.getLast?_cons_cons, ← hbt, ihv]
        have harith : count + ((item :: rest).take (k + 1)).length + (rest.drop k).length
            = count + (item :: rest).length := by
          rw [hm, List.length_drop]
          simp only [List.length_cons]
          have hk : ¬ rest.length - k = 0 := by
            intro h0
            apply hdrop
            apply List.eq_nil_of_length_eq_zero
            rw [List.length_drop]
            exact h0
          omega
        rw [harith]

/-- The page loop's percentages form a non-decreasing chain. -/
theorem pdfLoop_prog_chain (render : BarcodeItem → BarcodeConfig → String)
    (c : BarcodeConfig) (k cols n : ℕ) (bWp bHp gutp xS yS : ℚ) (hn : 0 < n) :
    ∀ (len : ℕ) (l : List BarcodeItem), l.length ≤ len → ∀ (count : ℕ),
      List.Chain' (· ≤ ·) (pdfLoop render c (k + 1) cols n bWp bHp gutp xS yS count l).2 := by
  intro len
  induction len with
  | zero =>
    intro l hl count
    have : l = [] := List.eq_nil_of_length_eq_zero (Nat.le_zero.mp hl)
    subst this
    rw [pdfLoop]
    simp
  | succ len ih =>
    intro l hl count
    match l with
    | [] =>
      rw [pdfLoop]
      simp
    | item :: rest =>
      rw [pdfLoop]
      have hdl : (rest.drop k).length ≤ len := by
        rw [List.length_drop]
        simp only [List.length_cons] at hl
        omega
      rw [List.chain'_cons']
      refine ⟨?_, ih (rest.drop k) hdl (count + ((item :: rest).take (k + 1)).length)⟩
      intro y hy
      have hymem := List.mem_of_mem_head? hy
      obtain ⟨j, h1, _, h3⟩ := pdfLoop_prog_mem render c k cols n bWp bHp gutp xS yS
        (rest.drop k).length (rest.drop k) le_rfl
        (count + ((item :: rest).take (k + 1)).length) y hymem
      rw [h3]
      exact pct_mono hn (by omega)

/-- The else branch of exportAsZip, written out. -/
theorem exportAsZip_pos (render : BarcodeItem → BarcodeConfig → String)
    (barcodes : List BarcodeItem) (c : BarcodeConfig)
    (hn : ¬ (barcodes.filter (·.valid)).length = 0) :
    exportAsZip render barcodes c =
      { folder := "barcodes",
        entries := (zipLoop render c (barcodes.filter (·.valid)).length 0
          (barcodes.filter (·.valid))).1,
        progress := (zipLoop render c (barcodes.filter (·.valid)).length 0
          (barcodes.filter (·.valid))).2,
        saved := true } := by
  simp only [exportAsZip]
  rw [if_neg hn]

/-- The else branch of exportAsPdf: pages and progress come from the page
loop at the grid's cell count, for some geometry parameters. -/
theorem exportAsPdf_pos (render : BarcodeItem → BarcodeConfig → String)
    (barcodes : List BarcodeItem) (c : BarcodeConfig) (p : PageSetup)
    (h : ¬ ((barcodes.filter (·.valid)).length = 0 ∨ (calculateGrid p c).totalCapacity ≤ 0)) :
    ∃ bWp bHp gutp xS yS : ℚ,
      exportAsPdf render barcodes c p =
        { alertMsg := none,
          pages := (pdfLoop render c
            ((calculateGrid p c).rows.toNat * (calculateGrid p c).cols.toNat)
            ((calculateGrid p c).cols.toNat) (barcodes.filter (·.valid)).length
            bWp bHp gutp xS yS 0 (barcodes.filter (·.valid))).1,
          progress := (pdfLoop render c
            ((calculateGrid p c).rows.toNat * (calculateGrid p c).cols.toNat)
            ((calculateGrid p c).cols.toNat) (barcodes.filter (·.valid)).length
            bWp bHp gutp xS yS 0 (barcodes.filter (·.valid))).2,
          saved := true } := by
  refine ⟨c.width * (UNIT_FACTORS p.unit / UNIT_FACTORS c.unit),
    c.height * (UNIT_FACTORS p.unit / UNIT_FACTORS c.unit),
    p.gutter,
    p.marginLeft + ((calculateGrid p c).pWidth - p.marginLeft - p.marginRight
      - (((calculateGrid p c).cols : ℚ) * (c.width * (UNIT_FACTORS p.unit / UNIT_FACTORS c.unit))
        + (((calculateGrid p c).cols : ℚ) - 1) * p.gutter)) / 2,
    p.marginTop + ((calculateGrid p c).pHeight - p.marginTop - p.marginBottom
      - (((calculateGrid p c).rows : ℚ) * (c.height * (UNIT_FACTORS p.unit / UNIT_FACTORS c.unit))
        + (((calculateGrid p c).rows : ℚ) - 1) * p.gutter)) / 2, ?_⟩
  simp only [exportAsPdf]
  rw [if_neg h]

/-- C9 amended: with at least one valid record (and, for the document
export, a grid of at least one column and one row), both exports report
percentages that are non-decreasing, lie in [0, 100], and end at exactly
100; exportAsZip invokes the callback once per valid record, while
exportAsPdf invokes it once per PAGE (not once per item — see the
counterexample). -/
theorem claim9_progress (render : BarcodeItem → BarcodeConfig → String)
    (barcodes : List BarcodeItem) (c : BarcodeConfig) (p : PageSetup)
    (hn : 0 < (barcodes.filter (·.valid)).length)
    (hcols : 1 ≤ (calculateGrid p c).cols) (hrows : 1 ≤ (calculateGrid p c).rows) :
    ((exportAsZip render barcodes c).progress).length = (barcodes.filter (·.valid)).length ∧
    List.Chain' (· ≤ ·) ((exportAsZip render barcodes c).progress) ∧
    (∀ v ∈ (exportAsZip render barcodes c).progress, 0 ≤ v ∧ v ≤ 100) ∧
    ((exportAsZip render barcodes c).progress).getLast? = some 100 ∧
    ((exportAsPdf render barcodes c p).progress).length
      = ((exportAsPdf render barcodes c p).pages).length ∧
    List.Chain' (· ≤ ·) ((exportAsPdf render barcodes c p).progress) ∧
    (∀ v ∈ (exportAsPdf render barcodes c p).progress, 0 ≤ v ∧ v ≤ 100) ∧
    ((exportAsPdf render barcodes c p).progress).getLast? = some 100 := by
  have hne : ¬ (barcodes.filter (·.valid)).length = 0 := Nat.pos_iff_ne_zero.mp hn
  have hcolsRaw : 1 ≤ colsRaw p c := by
    have h := hcols
    rw [calculateGrid_cols] at h
    omega
  have hrowsRaw : 1 ≤ rowsRaw p c := by
    have h := hrows
    rw [calculateGrid_rows] at h
    omega
  have hcap : 0 < (calculateGrid p c).totalCapacity := by
    rw [calculateGrid_totalCapacity]
    have hmul : (1 : ℤ) * 1 ≤ colsRaw p c * rowsRaw p c :=
      mul_le_mul hcolsRaw hrowsRaw (by norm_num) (by omega)
    rw [one_mul] at hmul
    omega
  have hguard : ¬ ((barcodes.filter (·.valid)).length = 0
      ∨ (calculateGrid p c).totalCapacity ≤ 0) := by
    push_neg
    exact ⟨hne, by omega⟩
  obtain ⟨bWp, bHp, gutp, xS, yS, hpdf⟩ := exportAsPdf_pos render barcodes c p hguard
  have hzip := exportAsZip_pos render barcodes c hne
  have hcpp : 1 ≤ (calculateGrid p c).rows.toNat * (calculateGrid p c).cols.toNat := by
    have h1 : 1 ≤ (calculateGrid p c).rows.toNat := by
      rw [calculateGrid_rows]
      omega
    have h2 : 1 ≤ (calculateGrid p c).cols.toNat := by
      rw [calculateGrid_cols]
      omega
    calc 1 = 1 * 1 := by norm_num
      _ ≤ (calculateGrid p c).rows.toNat * (calculateGrid p c).cols.toNat :=
        Nat.mul_le_mul h1 h2
  obtain ⟨k, hk⟩ : ∃ k, (calculateGrid p c).rows.toNat * (calculateGrid p c).cols.toNat
      = k + 1 := ⟨(calculateGrid p c).rows.toNat * (calculateGrid p c).cols.toNat - 1, by omega⟩
  have hvne : barcodes.filter (·.valid) ≠ [] := by
    intro hnil
    rw [hnil] at hne
    exact hne rfl
  simp only [hzip, hpdf, hk]
  rw [zipLoop_prog_eq]
  refine ⟨?_, ?_, ?_, ?_, ?_, ?_, ?_, ?_⟩
  · simp
  · exact chain_le_map_range' _ (fun a b h => pct_mono hn h) _ _
  · intro v hv
    simp only [List.mem_map] at hv
    obtain ⟨x, hx, rfl⟩ := hv
    rw [List.mem_range'_1] at hx
    exact jsRound_pct_bounds hx.1 (by omega)
  · rw [List.getLast?_map, List.getLast?_range', if_neg hne]
    have harith : 1 + (barcodes.filter (·.valid)).length - 1
        = (barcodes.filter (·.valid)).length := by omega
    rw [Option.map_some', harith, pct_final hn]
  · exact (pdfLoop_prog_len render c k ((calculateGrid p c).cols.toNat)
      (barcodes.filter (·.valid)).length bWp bHp gutp xS yS
      (barcodes.filter (·.valid)).length (barcodes.filter (·.valid)) le_rfl 0).symm
  · exact pdfLoop_prog_chain render c k ((calculateGrid p c).cols.toNat)
      (barcodes.filter (·.valid)).length bWp bHp gutp xS yS hn
      (barcodes.filter (·.valid)).length (barcodes.filter (·.valid)) le_rfl 0
  · intro v hv
    obtain ⟨j, h1, h2, h3⟩ := pdfLoop_prog_mem render c k ((calculateGrid p c).cols.toNat)
      (barcodes.filter (·.valid)).length bWp bHp gutp xS yS
      (barcodes.filter (·.valid)).length (barcodes.filter (·.valid)) le_rfl 0 v hv
    rw [h3]
    exact jsRound_pct_bounds (by omega) (by omega)
  · rw [pdfLoop_prog_last render c k ((calculateGrid p c).cols.toNat)
      (barcodes.filter (·.valid)).length bWp bHp gutp xS yS
      (barcodes.filter (·.valid)).length (barcodes.filter (·.valid)) le_rfl hvne 0]
    have harith : 0 + (barcodes.filter (·.valid)).length
        = (barcodes.filter (·.valid)).length := by omega
    rw [harith, pct_final hn]

/-- The grid of the 10in-page fixture with 2in labels: 4 columns, 4 rows,
capacity 16. -/
theorem gridTen_vals :
    (calculateGrid pageTen cfgTwo).cols = 4 ∧ (calculateGrid pageTen cfgTwo).rows = 4 ∧
    (calculateGrid pageTen cfgTwo).totalCapacity = 16 := by
  refine ⟨?_, ?_, ?_⟩ <;>
    norm_num [calculateGrid, colsRaw, rowsRaw, availableW, availableH, pW_in, pH_in,
      mL_in, mR_in, mT_in, mB_in, gut_in, bW_in, bH_in, pWidthEff, pHeightEff,
      toInches, UNIT_FACTORS, pageTen, cfgTwo]

/-- C9 counterexample: two valid records on a grid of capacity 16 fit on a
single page, so exportAsPdf invokes onProgress exactly once (with 100), not
once per item — the per-item part of the claim is false at this input. -/
theorem claim9_counterexample :
    ((exportAsPdf renderAlways [itemA, itemB] cfgTwo pageTen).progress) = [100] ∧
    (([itemA, itemB] : List BarcodeItem).filter (·.valid)).length = 2 ∧
    ((exportAsPdf renderAlways [itemA, itemB] cfgTwo pageTen).progress).length ≠
      (([itemA, itemB] : List BarcodeItem).filter (·.valid)).length := by
  obtain ⟨hc4, hr4, hcap16⟩ := gridTen_vals
  have hguard : ¬ ((([itemA, itemB] : List BarcodeItem).filter (·.valid)).length = 0
      ∨ (calculateGrid pageTen cfgTwo).totalCapacity ≤ 0) := by
    push_neg
    refine ⟨by simp [itemA, itemB], ?_⟩
    rw [hcap16]
    norm_num
  obtain ⟨bWp, bHp, gutp, xS, yS, hpdf⟩ :=
    exportAsPdf_pos renderAlways [itemA, itemB] cfgTwo pageTen hguard
  have hfilter : ([itemA, itemB] : List BarcodeItem).filter (·.valid) = [itemA, itemB] := by
    simp [itemA, itemB]
  have hcpp : (calculateGrid pageTen cfgTwo).rows.toNat
      * (calculateGrid pageTen cfgTwo).cols.toNat = 15 + 1 := by
    rw [hc4, hr4]
    rfl
  have hprog : (exportAsPdf renderAlways [itemA, itemB] cfgTwo pageTen).progress = [100] := by
    rw [hpdf]
    show (pdfLoop renderAlways cfgTwo _ _ _ bWp bHp gutp xS yS 0 _).2 = [100]
    rw [hfilter, hcpp, hc4]
    rw [pdfLoop]
    have htake : (([itemA, itemB] : List BarcodeItem).take (15 + 1)).length = 2 := by rfl
    have hdrop : ([itemB] : List BarcodeItem).drop 15 = [] := by rfl
    rw [htake, hdrop, pdfLoop]
    have hval : jsRound (((0 + 2 : ℕ) : ℚ)
        / ((([itemA, itemB] : List BarcodeItem).length : ℕ) : ℚ) * 100) = 100 := by
      norm_num [jsRound]
    simp only [hval]
  refine ⟨hprog, by simp [itemA, itemB], ?_⟩
  rw [hprog]
  simp [itemA, itemB]

/-- C9 amended witness at the two-record fixture. -/
theorem claim9_progress_witness :
    (0 < (([itemA, itemB] : List BarcodeItem).filter (·.valid)).length ∧
      1 ≤ (calculateGrid pageTen cfgTwo).cols ∧ 1 ≤ (calculateGrid pageTen cfgTwo).rows) ∧
    List.Chain' (· ≤ ·) ((exportAsZip renderAlways [itemA, itemB] cfgTwo).progress) ∧
    ((exportAsZip renderAlways [itemA, itemB] cfgTwo).progress).getLast? = some 100 ∧
    List.Chain' (· ≤ ·) ((exportAsPdf renderAlways [itemA, itemB] cfgTwo pageTen).progress) ∧
    ((exportAsPdf renderAlways [itemA, itemB] cfgTwo pageTen).progress).getLast? = some 100 := by
  have hcols : 1 ≤ (calculateGrid pageTen cfgTwo).cols := by
    rw [gridTen_vals.1]
    norm_num
  have hrows : 1 ≤ (calculateGrid pageTen cfgTwo).rows := by
    rw [gridTen_vals.2.1]
    norm_num
  have hn : 0 < (([itemA, itemB] : List BarcodeItem).filter (·.valid)).length := by
    simp [itemA, itemB]
  obtain ⟨_, z2, _, z4, _, p2, _, p4⟩ :=
    claim9_progress renderAlways [itemA, itemB] cfgTwo pageTen hn hcols hrows
  exact ⟨⟨hn, hcols, hrows⟩, z2, z4, p2, p4⟩

/-! ### Claim C10 -/

/-- Mapping successor over a contiguous range shifts its start. -/
theorem map_succ_range' : ∀ (m s : ℕ),
    (List.range' s m).map (fun i => i + 1) = List.range' (s + 1) m
  | 0, _ => rfl
  | m + 1, s => by
    rw [List.range'_succ, List.map_cons, map_succ_range' m (s + 1), List.range'_succ]

/-- The empty collection satisfies the renumbering invariant. -/
theorem indexedOk_nil : IndexedOk [] := by
  simp [IndexedOk]

/-- Renumbering a list from 1 via its enumeration always satisfies the
invariant. -/
theorem indexedOk_renumber (l : List BarcodeItem) :
    IndexedOk (l.enum.map (fun q => { q.2 with index := q.1 + 1 })) := by
  unfold IndexedOk
  rw [List.map_map]
  have hcomp : ((fun x : BarcodeItem => x.index)
      ∘ (fun q : ℕ × BarcodeItem => { q.2 with index := q.1 + 1 })) =
      ((fun i : ℕ => i + 1) ∘ Prod.fst) := rfl
  rw [hcomp, ← List.map_map]
  have henum : l.enum.map Prod.fst = List.range' 0 l.length := List.enumFrom_map_fst 0 l
  rw [henum, map_succ_range']
  simp

/-- The reducer preserves the renumbering invariant on every action other
than RESTORE. -/
theorem barcodesReducer_preserves (s : List BarcodeItem) (a : Action)
    (hs : IndexedOk s) (ha : a.isRestore = false) :
    IndexedOk (barcodesReducer s a) := by
  match a with
  | Action.restore payload => simp [Action.isRestore] at ha
  | Action.clearAll =>
    show IndexedOk []
    exact indexedOk_nil
  | Action.deleteIds payload =>
    exact indexedOk_renumber _
  | Action.addBatch payload =>
    unfold barcodesReducer
    have hlast : (match s.getLast? with
        | some item => item.index
        | none => 0) = s.length := by
      match hcase : s.getLast? with
      | none =>
        have : s = [] := List.getLast?_eq_none_iff.mp hcase
        rw [this]
        rfl
      | some item =>
        have hne : s.length ≠ 0 := by
          intro h0
          have : s = [] := List.eq_nil_of_length_eq_zero h0
          rw [this] at hcase
          simp at hcase
        have h1 : (s.map (·.index)).getLast? = some item.index := by
          rw [List.getLast?_map, hcase]
          rfl
        rw [hs, List.getLast?_range', if_neg hne] at h1
        have h2 : 1 + s.length - 1 = item.index := Option.some.inj h1
        show item.index = s.length
        omega
    rw [hlast]
    unfold IndexedOk
    rw [List.map_append, hs, List.map_map]
    have hcomp : ((fun x : BarcodeItem => x.index)
        ∘ (fun q : ℕ × BarcodeItem => { q.2 with index := s.length + q.1 + 1 })) =
        ((fun i : ℕ => s.length + 1 + i) ∘ Prod.fst) := by
      funext q
      show s.length + q.1 + 1 = s.length + 1 + q.1
      omega
    rw [hcomp, ← List.map_map]
    have henum : payload.enum.map Prod.fst = List.range' 0 payload.length :=
      List.enumFrom_map_fst 0 payload
    rw [henum]
    have haddmap : (List.range' 0 payload.length).map (fun i => s.length + 1 + i)
        = List.range' (s.length + 1) payload.length := by
      have := List.map_add_range' (s.length + 1) 0 payload.length 1
      simpa using this
    rw [haddmap]
    have happend := List.range'_append_1 1 s.length payload.length
    rw [show 1 + s.length = s.length + 1 from Nat.add_comm 1 s.length] at happend
    rw [happend]
    simp only [List.length_append, List.length_map, List.enum_length]
    rw [Nat.add_comm payload.length s.length]

/-- C10: starting from the empty collection, any finite sequence of
ADD_BATCH, DELETE_IDS and CLEAR_ALL actions (no RESTORE) leaves every
item's index field equal to its 1-based position in the list. -/
theorem claim10_reducer_indexes (acts : List Action)
    (h : ∀ a ∈ acts, a.isRestore = false) :
    IndexedOk (acts.foldl barcodesReducer []) := by
  have H : ∀ (acts' : List Action) (s : List BarcodeItem),
      (∀ a ∈ acts', a.isRestore = false) → IndexedOk s →
      IndexedOk (acts'.foldl barcodesReducer s) := by
    intro acts'
    induction acts' with
    | nil =>
      intro s _ hs
      simpa using hs
    | cons a rest ih =>
      intro s hall hs
      rw [List.foldl_cons]
      exact ih _ (fun x hx => hall x (List.mem_cons_of_mem a hx))
        (barcodesReducer_preserves s a hs (hall a (List.mem_cons_self a rest)))
  exact H acts [] h indexedOk_nil

/-- C10 witness: adding two records, deleting one by id and adding another
leaves indexes 1 and 2 matching positions. -/
theorem claim10_reducer_indexes_witness :
    (∀ a ∈ ([Action.addBatch [itemInvalid, itemA], Action.deleteIds ["x"],
      Action.addBatch [itemB]] : List Action), a.isRestore = false) ∧
    IndexedOk (([Action.addBatch [itemInvalid, itemA], Action.deleteIds ["x"],
      Action.addBatch [itemB]] : List Action).foldl barcodesReducer []) :=
  ⟨by decide, claim10_reducer_indexes _ (by decide)⟩

end BarcodeStudio
